import Mathlib

/-!
Verification of the Lightstack UI backend (`src/ui/backend/main.py`).

The backend drives an external provisioner (`init.sh`) as a subprocess:
it feeds it newline-terminated answer lines on stdin, captures stdout and
stderr, and adapts exit codes and text output into HTTP results.  This file
gives a shallow embedding of that logic: the answer-string builders, the
listing-output reader, the `stack_<digits>` id extractor, the JWT access
gate, and the exception flow of each request handler.  Subprocess execution
itself is modelled by an explicit outcome value (the process either failed
to start, raising an OS error, or completed with an exit code and captured
output); every handler is a pure function of that outcome.
-/

namespace Lightstack

/-! ## Data model (the Pydantic models of `main.py`) -/

/-- `class Stack(BaseModel)`: the creation-request body. -/
structure Stack where
  phoenixd_domain : String
  lnbits_domain : String
  use_real_certs : Bool
  use_postgres : Bool
  email : Option String
  deriving DecidableEq, Repr

/-- `class StackResponse(BaseModel)`: one stack record returned to the caller. -/
structure StackResponse where
  id : String
  phoenixd_domain : String
  lnbits_domain : String
  deriving DecidableEq, Repr

/-- `class UserInDB(User)`: a credential-store entry. -/
structure UserInDB where
  username : String
  password : String
  deriving DecidableEq, Repr

/-- `class User(BaseModel)`: the authenticated principal. -/
structure User where
  username : String
  deriving DecidableEq, Repr

/-! ## Subprocess outcomes and handler results

`subprocess.run` / `subprocess.Popen` either raise an `OSError` before the
child runs (binary missing or not executable) or run it to completion,
yielding a return code plus captured stdout and stderr text. -/

/-- Outcome of one provisioner invocation. -/
inductive ProcOutcome where
  /-- The process failed to start: `Popen`/`run` raised an `OSError`
  (e.g. `FileNotFoundError`) whose `str()` rendering is `exnMsg`. -/
  | startFailure (exnMsg : String)
  /-- The process ran to completion with this exit code and captured text. -/
  | completed (returncode : Int) (stdout : String) (stderr : String)
  deriving DecidableEq, Repr

/-- What the HTTP caller observes from one handler call. -/
inductive HandlerResult (α : Type) where
  /-- The handler returned normally with a value. -/
  | ok (value : α)
  /-- The handler raised `HTTPException(status_code, detail)`. -/
  | httpError (statusCode : Nat) (detail : String)
  /-- An exception escaped the handler uncaught; the framework answers with a
  generic 500 response carrying none of the handler data.  `exnMsg` records
  the escaped exception for reasoning; the caller sees only the generic page. -/
  | unhandled (exnMsg : String)
  deriving DecidableEq, Repr

/-- Whether a handler call returned normally. -/
def HandlerResult.isOk : HandlerResult α → Bool
  | .ok _ => true
  | _ => false

/-- Python exceptions raised inside the `try` block of `add_stack` /
`remove_stack` and caught by their `except Exception` clause. -/
inductive PyExn where
  /-- `HTTPException(status_code=sc, detail=d)` raised in the handler body. -/
  | httpException (statusCode : Nat) (detail : String)
  /-- An `OSError` from `subprocess.Popen` (binary missing / not executable). -/
  | osError (msg : String)
  deriving DecidableEq, Repr

/-- `str(e)` for the exceptions above.  Starlette `HTTPException.__str__`
returns `f"{status_code}: {detail}"`; for an `OSError`, `str(e)` is its
formatted message. -/
def strPyExn : PyExn → String
  | .httpException sc d => toString sc ++ ": " ++ d
  | .osError m => m

/-- `str()` of the `OSError` CPython raises when the provisioner binary cannot
be executed: `"[Errno <n>] <strerror>: <filename>"` (CPython additionally
quotes the filename; the quoting is immaterial to everything proved here).
For a missing binary `n = 2`, `strerror = "No such file or directory"`;
for a non-executable one `n = 13`, `strerror = "Permission denied"`. -/
def osErrorMsg (errno : Nat) (strerror : String) (filename : String) : String :=
  "[Errno " ++ toString errno ++ "] " ++ strerror ++ ": " ++ filename

/-! ## Stack Command Builder (the stdin answer strings) -/

/-- Python `str()` applied to an `Optional[str]`: `str(None)` is the literal
`"None"`; an f-string interpolates a value through `str()`. -/
def pyStrOption : Option String → String
  | none => "None"
  | some s => s

/-- The `answers` f-string of `add_stack` (`main.py` lines 168–174): six
newline-terminated answer lines fed to `init.sh add` on stdin. -/
def buildAddAnswers (stack : Stack) : String :=
  stack.phoenixd_domain ++ "\n" ++
  stack.lnbits_domain ++ "\n" ++
  (if stack.use_real_certs then "y" else "n") ++ "\n" ++
  (if stack.use_real_certs then pyStrOption stack.email else "") ++ "\n" ++
  (if stack.use_postgres then "y" else "n") ++ "\n" ++
  "y" ++ "\n"

/-- The stdin text of `remove_stack`: `f"{stack_id}\ny\n"`. -/
def buildDelAnswers (stack_id : String) : String :=
  stack_id ++ "\ny\n"

/-- Split a character stream into the lines a line-oriented consumer of stdin
reads: segments separated by `'\n'`, a trailing newline terminating the last
line rather than opening an empty one. -/
def breakLines : List Char → List (List Char)
  | [] => []
  | c :: rest =>
    if c = '\n' then [] :: breakLines rest
    else
      match breakLines rest with
      | [] => [[c]]
      | l :: ls => (c :: l) :: ls

/-- The stdin lines of an answer string, as strings. -/
def stdinLines (s : String) : List String :=
  (breakLines s.data).map fun l => ⟨l⟩

/-! ## Stack Directory Reader (parsing `init.sh list` stdout)

Python's string methods are embedded as structurally recursive functions on
the character list, so that they evaluate inside the kernel. -/

/-- Drop leading Python whitespace (the left half of `str.strip()`). -/
def pyStripLeft : List Char → List Char
  | [] => []
  | c :: rest => if c.isWhitespace then pyStripLeft rest else c :: rest

/-- Python `str.strip()` with no argument: drop leading and trailing
whitespace. -/
def pyStrip (cs : List Char) : List Char :=
  ((pyStripLeft cs).reverse |> pyStripLeft).reverse

/-- Python `s.split("\n")`: split at every newline, keeping empty segments
(`"".split("\n") == [""]`, and a trailing newline yields a final `""`). -/
def splitOnNl : List Char → List (List Char)
  | [] => [[]]
  | c :: rest =>
    if c = '\n' then [] :: splitOnNl rest
    else
      match splitOnNl rest with
      | [] => [[c]]
      | l :: ls => (c :: l) :: ls

/-- Accumulator loop for `str.split()` with no separator. -/
def pyWordsAux : List Char → List Char → List (List Char)
  | [], acc => if acc = [] then [] else [acc.reverse]
  | c :: rest, acc =>
    if c.isWhitespace then
      if acc = [] then pyWordsAux rest [] else acc.reverse :: pyWordsAux rest []
    else pyWordsAux rest (c :: acc)

/-- Python `str.split()` with no separator: the maximal non-whitespace runs,
in order (no empty tokens). -/
def pySplit (line : String) : List String :=
  (pyWordsAux line.data []).map fun w => ⟨w⟩

/-- `result.stdout.strip()`. -/
def pyStripString (s : String) : String :=
  ⟨pyStrip s.data⟩

/-- `....split("\n")`, as strings. -/
def splitLinesPy (s : String) : List String :=
  (splitOnNl s.data).map fun l => ⟨l⟩

/-- The loop of `get_stacks` (`main.py` lines 148–157) over the lines of
`result.stdout.strip().split("\n")`: a falsy (empty) line is skipped; a
non-empty line is unpacked as `id, phoenixd, lnbits = line.split()`, which
raises `ValueError` unless it has exactly three tokens. -/
def parseStacksLines : List String → Except String (List StackResponse)
  | [] => .ok []
  | line :: rest =>
    if line = "" then parseStacksLines rest
    else
      match pySplit line with
      | [i, p, l] => (parseStacksLines rest).map fun recs => ⟨i, p, l⟩ :: recs
      | _ => .error "ValueError: unpacking line.split() needs exactly 3 values"

/-- Full listing parse: `result.stdout.strip().split("\n")` then the loop. -/
def parseStacks (stdout : String) : Except String (List StackResponse) :=
  parseStacksLines (splitLinesPy (pyStripString stdout))

/-! ## Id extraction: `re.search(r"stack_(\d+)", stdout)`

`re.search` scans left to right and succeeds at the leftmost position where
the pattern matches; `\d+` is greedy, so the captured group is the maximal
digit run following `stack_`. -/

/-- The literal characters of the pattern before the capture group. -/
def stackTag : List Char := ['s', 't', 'a', 'c', 'k', '_']

/-- Try to match `stack_(\d+)` at the head of the stream, returning the
captured digits. -/
def matchStackAt (cs : List Char) : Option (List Char) :=
  if stackTag.isPrefixOf cs then
    let digits := (cs.drop 6).takeWhile Char.isDigit
    if digits = [] then none else some digits
  else none

/-- Leftmost match of `stack_(\d+)`: the capture group of `re.search`. -/
def searchStackId : List Char → Option (List Char)
  | [] => none
  | c :: rest =>
    match matchStackAt (c :: rest) with
    | some digits => some digits
    | none => searchStackId rest

/-- `re.search(r"stack_(\d+)", stdout)` followed by `.group(1)`. -/
def findStackId (stdout : String) : Option String :=
  (searchStackId stdout.data).map fun digits => ⟨digits⟩

/-- The stdout text contains a substring matching `stack_<digits>`. -/
def ContainsStackToken (s : String) : Prop :=
  ∃ pre digits post, digits ≠ [] ∧ (∀ c ∈ digits, c.isDigit) ∧
    s.data = pre ++ stackTag ++ digits ++ post

/-! ## The request handlers -/

/-- `GET /stacks` (`main.py` lines 138–162), as a function of the subprocess
outcome.  `subprocess.run(..., check=True)` raises `CalledProcessError` on a
non-zero exit, which the handler catches and maps to a 500 with the captured
stderr; an `OSError` on start and a `ValueError` from line unpacking are not
caught and escape the handler. -/
def get_stacks (outcome : ProcOutcome) : HandlerResult (List StackResponse) :=
  match outcome with
  | .startFailure exn => .unhandled exn
  | .completed rc stdout stderr =>
    if rc = 0 then
      match parseStacks stdout with
      | .ok recs => .ok recs
      | .error msg => .unhandled msg
    else
      .httpError 500 ("Failed to list stacks: " ++ stderr)

/-- The `try` body of `POST /stacks` (`main.py` lines 166–207): errors are the
Python exceptions the body raises. -/
def addStackBody (stack : Stack) (outcome : ProcOutcome) :
    Except PyExn StackResponse :=
  match outcome with
  | .startFailure exn => .error (.osError exn)
  | .completed rc stdout stderr =>
    if rc = 0 then
      match findStackId stdout with
      | none => .error (.httpException 500 "Failed to extract stack ID from output")
      | some stack_id =>
          .ok ⟨stack_id, stack.phoenixd_domain, stack.lnbits_domain⟩
    else
      .error (.httpException 500 ("Failed to add stack: " ++ stderr))

/-- `POST /stacks` (`main.py` lines 164–213): the `try` body wrapped by
`except Exception as e: raise HTTPException(500, detail=str(e))`. -/
def add_stack (stack : Stack) (outcome : ProcOutcome) :
    HandlerResult StackResponse :=
  match addStackBody stack outcome with
  | .ok r => .ok r
  | .error e => .httpError 500 (strPyExn e)

/-- The `try` body of `DELETE /stacks/{stack_id}` (`main.py` lines 217–235). -/
def removeStackBody (stack_id : String) (outcome : ProcOutcome) :
    Except PyExn String :=
  match outcome with
  | .startFailure exn => .error (.osError exn)
  | .completed rc _ stderr =>
    if rc = 0 then
      .ok ("Stack " ++ stack_id ++ " removed successfully")
    else
      .error (.httpException 500 ("Failed to remove stack: " ++ stderr))

/-- `DELETE /stacks/{stack_id}` (`main.py` lines 215–241): the `try` body
wrapped by the same `except Exception` clause as `add_stack`. -/
def remove_stack (stack_id : String) (outcome : ProcOutcome) :
    HandlerResult String :=
  match removeStackBody stack_id outcome with
  | .ok r => .ok r
  | .error e => .httpError 500 (strPyExn e)

/-! ## Access Gate (JWT authentication)

Time is modelled in whole seconds as `Int` (PyJWT serialises `exp` to a unix
timestamp and compares it against the clock).  A JWT value is either a
malformed blob or a payload signed with a key; `jwt.decode` with the default
options verifies the signature and then the `exp` claim, raising an
`ExpiredSignatureError` (a `PyJWTError`) exactly when `exp < now`
(zero leeway). -/

/-- The claim set `{"sub": ..., "exp": ...}` the backend encodes. -/
structure JwtPayload where
  sub : Option String
  exp : Int
  deriving DecidableEq, Repr

/-- A bearer token as presented by a caller. -/
inductive JwtToken where
  /-- Not a well-formed JWT at all: `jwt.decode` raises `DecodeError`. -/
  | malformed (raw : String)
  /-- A JWT carrying `payload`, signed with `key`. -/
  | signed (payload : JwtPayload) (key : String)
  deriving DecidableEq, Repr

/-- `SECRET_KEY = os.getenv("JWT_SECRET_KEY", "your-secret-key")`
(the default, when the environment variable is unset). -/
def SECRET_KEY : String := "your-secret-key"

/-- `ACCESS_TOKEN_EXPIRE_MINUTES = 30`. -/
def ACCESS_TOKEN_EXPIRE_MINUTES : Int := 30

/-- `jwt.decode(token, key, algorithms=[ALGORITHM])`: signature check, then
expiry check.  Every failure is a `PyJWTError`; the error payload here only
records which one for reasoning — `get_current_user` catches them all. -/
def jwt_decode (token : JwtToken) (key : String) (now : Int) :
    Except String JwtPayload :=
  match token with
  | .malformed _ => .error "DecodeError"
  | .signed payload k =>
    if k ≠ key then .error "InvalidSignatureError"
    else if payload.exp < now then .error "ExpiredSignatureError"
    else .ok payload

/-- `USERS_DB`: the fixed credential store, keyed by username. -/
def USERS_DB : List (String × UserInDB) :=
  [("admin", ⟨"admin", "adminpassword"⟩)]

/-- `get_user` (`main.py` lines 79–83): dictionary lookup. -/
def get_user (username : String) : Option UserInDB :=
  USERS_DB.lookup username

/-- `verify_password` (`main.py` lines 73–77). -/
def verify_password (plain_password : String) (username : String) : Bool :=
  match USERS_DB.lookup username with
  | none => false
  | some user => plain_password = user.password

/-- `authenticate_user` (`main.py` lines 85–91). -/
def authenticate_user (username password : String) : Option UserInDB :=
  match get_user username with
  | none => none
  | some user => if verify_password password username then some user else none

/-- `create_access_token` (`main.py` lines 93–101): add an `exp` claim at
`utcnow() + expires_delta` (default 15 minutes) and sign with `SECRET_KEY`.
`now` is `datetime.utcnow()` in seconds; `expires_delta` in seconds. -/
def create_access_token (sub : String) (now : Int)
    (expires_delta : Option Int) : JwtToken :=
  match expires_delta with
  | some d => .signed ⟨some sub, now + d⟩ SECRET_KEY
  | none => .signed ⟨some sub, now + 15 * 60⟩ SECRET_KEY

/-- `POST /token` (`main.py` lines 123–136). -/
def login_for_access_token (username password : String) (now : Int) :
    HandlerResult JwtToken :=
  match authenticate_user username password with
  | none => .httpError 401 "Incorrect username or password"
  | some user =>
      .ok (create_access_token user.username now
        (some (ACCESS_TOKEN_EXPIRE_MINUTES * 60)))

/-- The `exp` claim of a token (`0` for a malformed blob, which has none). -/
def tokenExp : JwtToken → Int
  | .malformed _ => 0
  | .signed payload _ => payload.exp

/-- `get_current_user` (`main.py` lines 103–120), the access gate: decode the
bearer token; on any `PyJWTError`, on a missing `sub` claim, and on an unknown
user, raise the one shared `credentials_exception`
(`HTTPException(401, "Could not validate credentials")`). -/
def get_current_user (token : JwtToken) (now : Int) : HandlerResult User :=
  match jwt_decode token SECRET_KEY now with
  | .error _ => .httpError 401 "Could not validate credentials"
  | .ok payload =>
    match payload.sub with
    | none => .httpError 401 "Could not validate credentials"
    | some username =>
      match get_user username with
      | none => .httpError 401 "Could not validate credentials"
      | some user => .ok ⟨user.username⟩

/-! ## Helper lemmas -/

/-- A sample creation request, used to instantiate universally quantified
theorems at a concrete input. -/
def sampleStack : Stack :=
  ⟨"pay.example.com", "wallet.example.com", false, false, none⟩

lemma breakLines_append (xs rest : List Char) (h : '\n' ∉ xs) :
    breakLines (xs ++ '\n' :: rest) = xs :: breakLines rest := by
  induction xs with
  | nil => simp [breakLines]
  | cons x xs ih =>
    have hx : ¬ x = '\n' := fun hx => h (hx ▸ List.mem_cons_self x xs)
    have hxs : '\n' ∉ xs := fun hm => h (List.mem_cons_of_mem _ hm)
    simp only [List.cons_append, breakLines, List.append_eq, if_neg hx, ih hxs]

lemma stdinLines_six (a b c d e : String)
    (ha : '\n' ∉ a.data) (hb : '\n' ∉ b.data) (hc : '\n' ∉ c.data)
    (hd : '\n' ∉ d.data) (he : '\n' ∉ e.data) :
    stdinLines
      (a ++ "\n" ++ b ++ "\n" ++ c ++ "\n" ++ d ++ "\n" ++ e ++ "\n" ++ "y" ++ "\n") =
      [a, b, c, d, e, "y"] := by
  have hnl : ("\n" : String).data = ['\n'] := rfl
  have hdata :
      (a ++ "\n" ++ b ++ "\n" ++ c ++ "\n" ++ d ++ "\n" ++ e ++ "\n" ++ "y" ++ "\n").data =
        a.data ++ '\n' :: (b.data ++ '\n' :: (c.data ++ '\n' ::
          (d.data ++ '\n' :: (e.data ++ '\n' :: (("y" : String).data ++ '\n' :: []))))) := by
    simp [String.data_append, hnl, List.append_assoc]
  have hy : '\n' ∉ ("y" : String).data := by decide
  unfold stdinLines
  rw [hdata, breakLines_append _ _ ha, breakLines_append _ _ hb,
    breakLines_append _ _ hc, breakLines_append _ _ hd, breakLines_append _ _ he,
    breakLines_append _ _ hy]
  rfl

lemma stdinLines_buildAddAnswers (stack : Stack)
    (h1 : '\n' ∉ stack.phoenixd_domain.data)
    (h2 : '\n' ∉ stack.lnbits_domain.data)
    (h3 : '\n' ∉ (if stack.use_real_certs then pyStrOption stack.email else "").data) :
    stdinLines (buildAddAnswers stack) =
      [stack.phoenixd_domain, stack.lnbits_domain,
       if stack.use_real_certs then "y" else "n",
       if stack.use_real_certs then pyStrOption stack.email else "",
       if stack.use_postgres then "y" else "n", "y"] := by
  have hc : '\n' ∉ (if stack.use_real_certs then ("y" : String) else "n").data := by
    cases stack.use_real_certs <;> decide
  have hp : '\n' ∉ (if stack.use_postgres then ("y" : String) else "n").data := by
    cases stack.use_postgres <;> decide
  unfold buildAddAnswers
  exact stdinLines_six _ _ _ _ _ h1 h2 hc h3 hp

/-- The email hypothesis of the claims, pushed through the `if`. -/
lemma email_line_no_newline (stack : Stack)
    (h : ∀ e, stack.email = some e → '\n' ∉ e.data) :
    '\n' ∉ (if stack.use_real_certs then pyStrOption stack.email else "").data := by
  cases hc : stack.use_real_certs with
  | false =>
    rw [if_neg (by decide)]
    decide
  | true =>
    rw [if_pos rfl]
    cases he : stack.email with
    | none => decide
    | some e => simpa [pyStrOption] using h e he

lemma parseStacksLines_wellformed (lines : List String)
    (h : ∀ l ∈ lines, l ≠ "" → (pySplit l).length = 3) :
    ∃ recs, parseStacksLines lines = .ok recs ∧
      recs.map (fun r => [r.id, r.phoenixd_domain, r.lnbits_domain]) =
        (lines.filter fun l => l ≠ "").map pySplit := by
  induction lines with
  | nil => exact ⟨[], rfl, rfl⟩
  | cons line rest ih =>
    obtain ⟨recs, hok, hmap⟩ := ih fun l hl => h l (List.mem_cons_of_mem _ hl)
    by_cases hl : line = ""
    · subst hl
      refine ⟨recs, ?_, ?_⟩
      · simpa [parseStacksLines] using hok
      · simpa [List.filter_cons] using hmap
    · obtain ⟨a, b, c, habc⟩ :=
        List.length_eq_three.mp (h line (List.mem_cons_self _ _) hl)
      refine ⟨⟨a, b, c⟩ :: recs, ?_, ?_⟩
      · simp [parseStacksLines, hl, habc, hok, Except.map]
      · simp [List.filter_cons, hl, habc, hmap]

lemma parseStacksLines_badline (lines : List String)
    (h : ∃ l ∈ lines, l ≠ "" ∧ (pySplit l).length ≠ 3) :
    ∃ msg, parseStacksLines lines = .error msg := by
  induction lines with
  | nil => simp at h
  | cons line rest ih =>
    by_cases hl : line = ""
    · subst hl
      have h' : ∃ l ∈ rest, l ≠ "" ∧ (pySplit l).length ≠ 3 := by
        rcases h with ⟨l, hmem, hne, hlen⟩
        rcases List.mem_cons.mp hmem with rfl | hmem'
        · exact absurd rfl hne
        · exact ⟨l, hmem', hne, hlen⟩
      obtain ⟨msg, hmsg⟩ := ih h'
      exact ⟨msg, by simpa [parseStacksLines] using hmsg⟩
    · by_cases hlen : (pySplit line).length = 3
      · obtain ⟨a, b, c, habc⟩ := List.length_eq_three.mp hlen
        have h' : ∃ l ∈ rest, l ≠ "" ∧ (pySplit l).length ≠ 3 := by
          rcases h with ⟨l, hmem, hne, hlen'⟩
          rcases List.mem_cons.mp hmem with rfl | hmem'
          · exact absurd hlen hlen'
          · exact ⟨l, hmem', hne, hlen'⟩
        obtain ⟨msg, hmsg⟩ := ih h'
        exact ⟨msg, by simp [parseStacksLines, hl, habc, hmsg, Except.map]⟩
      · refine ⟨"ValueError: unpacking line.split() needs exactly 3 values", ?_⟩
        rcases hps : pySplit line with _ | ⟨a, _ | ⟨b, _ | ⟨c, _ | ⟨d, t⟩⟩⟩⟩ <;>
          first
          | exact absurd (by rw [hps]; rfl) hlen
          | simp [parseStacksLines, hl, hps]

lemma matchStackAt_eq_some {cs digits : List Char}
    (h : matchStackAt cs = some digits) :
    digits ≠ [] ∧ (∀ c ∈ digits, c.isDigit) ∧
      ∃ post, cs = stackTag ++ digits ++ post := by
  unfold matchStackAt at h
  by_cases hp : stackTag.isPrefixOf cs
  · rw [if_pos hp] at h
    obtain ⟨t, ht⟩ : stackTag <+: cs := List.isPrefixOf_iff_prefix.mp hp
    by_cases hne : (cs.drop 6).takeWhile Char.isDigit = []
    · rw [if_pos hne] at h
      exact absurd h (by simp)
    · rw [if_neg hne] at h
      obtain rfl : (cs.drop 6).takeWhile Char.isDigit = digits := by
        simpa using h
      have hdrop : cs.drop 6 = t := by
        rw [← ht]
        exact List.drop_left' rfl
      refine ⟨hne, fun c hc => List.mem_takeWhile_imp hc, t.dropWhile Char.isDigit, ?_⟩
      rw [hdrop, ← ht, List.append_assoc, List.takeWhile_append_dropWhile]
  · rw [if_neg hp] at h
    exact absurd h (by simp)

lemma matchStackAt_decomp_isSome (digits post : List Char)
    (hne : digits ≠ []) (hdig : ∀ c ∈ digits, c.isDigit) :
    (matchStackAt (stackTag ++ digits ++ post)).isSome = true := by
  unfold matchStackAt
  have hp : stackTag.isPrefixOf (stackTag ++ digits ++ post) := by
    rw [List.append_assoc]
    exact List.isPrefixOf_iff_prefix.mpr (List.prefix_append _ _)
  rw [if_pos hp]
  have hdrop : (stackTag ++ digits ++ post).drop 6 = digits ++ post := by
    rw [List.append_assoc]
    exact List.drop_left' rfl
  rcases digits with _ | ⟨d0, ds⟩
  · exact absurd rfl hne
  · have hd0 : Char.isDigit d0 := hdig d0 (List.mem_cons_self _ _)
    rw [hdrop, List.cons_append, List.takeWhile_cons_of_pos hd0]
    simp

lemma searchStackId_isSome_iff (cs : List Char) :
    (searchStackId cs).isSome = true ↔
      ∃ pre digits post, digits ≠ [] ∧ (∀ c ∈ digits, c.isDigit) ∧
        cs = pre ++ stackTag ++ digits ++ post := by
  induction cs with
  | nil =>
    constructor
    · intro h
      simp [searchStackId] at h
    · rintro ⟨pre, digits, post, hne, _, heq⟩
      have hlen := congrArg List.length heq
      simp [stackTag] at hlen
      omega
  | cons c rest ih =>
    constructor
    · intro h
      unfold searchStackId at h
      rcases hm : matchStackAt (c :: rest) with _ | d
      · rw [hm] at h
        obtain ⟨pre, digits, post, hne, hdig, heq⟩ := ih.mp h
        exact ⟨c :: pre, digits, post, hne, hdig, by simp [heq]⟩
      · obtain ⟨hne, hdig, post, heq⟩ := matchStackAt_eq_some hm
        exact ⟨[], d, post, hne, hdig, by simpa using heq⟩
    · rintro ⟨pre, digits, post, hne, hdig, heq⟩
      rcases pre with _ | ⟨p, pre'⟩
      · unfold searchStackId
        rw [List.nil_append] at heq
        rw [heq]
        rcases hm : matchStackAt (stackTag ++ digits ++ post) with _ | d
        · have := matchStackAt_decomp_isSome digits post hne hdig
          rw [hm] at this
          simp at this
        · simp
      · have hc : rest = pre' ++ stackTag ++ digits ++ post := by
          have : c :: rest = p :: (pre' ++ stackTag ++ digits ++ post) := by
            simpa [List.append_assoc] using heq
          have := (List.cons.injEq _ _ _ _).mp this
          simp [List.append_assoc, this.2]
        unfold searchStackId
        rcases hm : matchStackAt (c :: rest) with _ | d
        · exact ih.mpr ⟨pre', digits, post, hne, hdig, hc⟩
        · simp

/-- Every outcome of the access gate is either the one shared
`credentials_exception` or a success. -/
lemma get_current_user_cases (t : JwtToken) (n : Int) :
    get_current_user t n = .httpError 401 "Could not validate credentials" ∨
    ∃ u, get_current_user t n = .ok u := by
  unfold get_current_user
  split
  · exact Or.inl rfl
  · split
    · exact Or.inl rfl
    · split
      · exact Or.inl rfl
      · exact Or.inr ⟨_, rfl⟩

/-- The wrapped detail `f"{status_code}: {detail}"` for status 500. -/
lemma strPyExn_http500 (d : String) :
    strPyExn (.httpException 500 d) = "500: " ++ d := by
  show toString (500 : Nat) ++ ": " ++ d = "500: " ++ d
  rw [show toString (500 : Nat) = "500" from rfl,
    show ("500" : String) ++ ": " = "500: " from rfl]

/-- Wrapping through `str()` always changes an `HTTPException` detail: the
status-code text and `": "` are prepended. -/
lemma strPyExn_http_ne (sc : Nat) (d : String) :
    strPyExn (.httpException sc d) ≠ d := by
  intro h
  have hlen := congrArg String.length h
  have h2 : (": " : String).length = 2 := rfl
  simp [strPyExn, String.length_append, h2] at hlen

/-- An OS-error message starts with `'['`, so it never coincides with a
wrapped 500 detail, which starts with `'5'`. -/
lemma osErrorMsg_ne_500msg (errno : Nat) (strerror filename d : String) :
    osErrorMsg errno strerror filename ≠ "500: " ++ d := by
  intro h
  have h1 : (osErrorMsg errno strerror filename).data.head? = some '[' := by
    have hb : ("[Errno " : String).data = '[' :: ("Errno " : String).data := rfl
    simp [osErrorMsg, String.data_append, hb]
  have h2 : (("500: " : String) ++ d).data.head? = some '5' := by
    have hb : ("500: " : String).data = '5' :: ("00: " : String).data := rfl
    simp [String.data_append, hb]
  rw [h] at h1
  rw [h1] at h2
  exact absurd h2 (by decide)

/-! ## The claims -/

/-- Claim C1: for a create call whose subprocess exits 0, if the captured
stdout contains a substring matching `stack_<digits>`, the handler returns a
record whose `id` is the captured digit group (of the leftmost match found by
`re.search`), e.g. stdout containing `stack_42` yields id `"42"`; if stdout
contains no such substring, the call fails with the output-parsing 500 even
though the exit code was 0.  The last conjunct identifies the search result
with the declarative containment property. -/
theorem create_extracts_stack_id (stack : Stack) (stdout stderr : String) :
    (∀ digits, searchStackId stdout.data = some digits →
      add_stack stack (.completed 0 stdout stderr) =
        .ok ⟨⟨digits⟩, stack.phoenixd_domain, stack.lnbits_domain⟩) ∧
    (searchStackId stdout.data = none →
      add_stack stack (.completed 0 stdout stderr) =
        .httpError 500 ("500: " ++ "Failed to extract stack ID from output")) ∧
    ((searchStackId stdout.data).isSome = true ↔ ContainsStackToken stdout) := by
  refine ⟨fun digits hd => ?_, fun hd => ?_, searchStackId_isSome_iff stdout.data⟩
  · simp [add_stack, addStackBody, findStackId, hd]
  · simp [add_stack, addStackBody, findStackId, hd, strPyExn_http500]

theorem create_extracts_stack_id_witness :
    add_stack sampleStack (.completed 0 "Creating... stack_42 ready\n" "") =
      .ok ⟨"42", "pay.example.com", "wallet.example.com"⟩ :=
  (create_extracts_stack_id sampleStack "Creating... stack_42 ready\n" "").1
    ['4', '2'] (by decide)

/-- Claim C2: whenever the provisioner exits non-zero, each of the three
operations fails with the 500 provisioning-failure error whose detail carries
the captured stderr text verbatim (for create/remove, behind the `"500: "`
wrapping of the catch-all handler). -/
theorem nonzero_exit_carries_stderr (rc : Int) (stdout stderr : String)
    (stack : Stack) (stack_id : String) (h : rc ≠ 0) :
    get_stacks (.completed rc stdout stderr) =
      .httpError 500 ("Failed to list stacks: " ++ stderr) ∧
    add_stack stack (.completed rc stdout stderr) =
      .httpError 500 ("500: " ++ ("Failed to add stack: " ++ stderr)) ∧
    remove_stack stack_id (.completed rc stdout stderr) =
      .httpError 500 ("500: " ++ ("Failed to remove stack: " ++ stderr)) := by
  refine ⟨?_, ?_, ?_⟩
  · simp [get_stacks, h]
  · simp [add_stack, addStackBody, h, strPyExn_http500]
  · simp [remove_stack, removeStackBody, h, strPyExn_http500]

theorem nonzero_exit_carries_stderr_witness :
    get_stacks (.completed 1 "" "certificate issuance failed") =
      .httpError 500 ("Failed to list stacks: " ++ "certificate issuance failed") ∧
    add_stack sampleStack (.completed 1 "" "certificate issuance failed") =
      .httpError 500
        ("500: " ++ ("Failed to add stack: " ++ "certificate issuance failed")) ∧
    remove_stack "7" (.completed 1 "" "certificate issuance failed") =
      .httpError 500
        ("500: " ++ ("Failed to remove stack: " ++ "certificate issuance failed")) :=
  nonzero_exit_carries_stderr 1 "" "certificate issuance failed" sampleStack "7"
    (by decide)

/-- Claim C3: for a listing output whose lines (after `strip()` and splitting
on newlines) are all blank or have exactly three whitespace-separated tokens,
the list call succeeds and returns one record per non-blank line, in order,
with the three fields equal to the three tokens of the corresponding line. -/
theorem list_wellformed_roundtrip (stdout stderr : String)
    (h : ∀ l ∈ splitLinesPy (pyStripString stdout), l ≠ "" → (pySplit l).length = 3) :
    ∃ recs, get_stacks (.completed 0 stdout stderr) = .ok recs ∧
      recs.length =
        ((splitLinesPy (pyStripString stdout)).filter fun l => l ≠ "").length ∧
      recs.map (fun r => [r.id, r.phoenixd_domain, r.lnbits_domain]) =
        ((splitLinesPy (pyStripString stdout)).filter fun l => l ≠ "").map pySplit := by
  obtain ⟨recs, hok, hmap⟩ := parseStacksLines_wellformed _ h
  refine ⟨recs, ?_, ?_, hmap⟩
  · simp [get_stacks, parseStacks, hok]
  · simpa using congrArg List.length hmap

theorem list_wellformed_roundtrip_witness :
    ∃ recs,
      get_stacks (.completed 0 "7 pay.example.com wallet.example.com\n" "") =
        .ok recs ∧
      recs.length =
        ((splitLinesPy (pyStripString "7 pay.example.com wallet.example.com\n")).filter
          fun l => l ≠ "").length ∧
      recs.map (fun r => [r.id, r.phoenixd_domain, r.lnbits_domain]) =
        ((splitLinesPy (pyStripString "7 pay.example.com wallet.example.com\n")).filter
          fun l => l ≠ "").map pySplit :=
  list_wellformed_roundtrip "7 pay.example.com wallet.example.com\n" "" (by decide)

/-- Claim C4: for every creation request (whose domain and email strings are
newline-free, as domains and emails are), the answer text fed to the
provisioner consists of exactly 6 stdin lines in the fixed order payment
domain, wallet domain, certificate flag, contact email, database flag, final
confirmation; and line 4 is empty whenever `use_real_certs` is false,
regardless of the supplied email. -/
theorem add_answer_sequence (stack : Stack)
    (h1 : '\n' ∉ stack.phoenixd_domain.data)
    (h2 : '\n' ∉ stack.lnbits_domain.data)
    (h3 : ∀ e, stack.email = some e → '\n' ∉ e.data) :
    stdinLines (buildAddAnswers stack) =
      [stack.phoenixd_domain, stack.lnbits_domain,
       if stack.use_real_certs then "y" else "n",
       if stack.use_real_certs then pyStrOption stack.email else "",
       if stack.use_postgres then "y" else "n", "y"] ∧
    (stdinLines (buildAddAnswers stack)).length = 6 ∧
    (stack.use_real_certs = false →
      (stdinLines (buildAddAnswers stack))[3]? = some "") := by
  have hsix := stdinLines_buildAddAnswers stack h1 h2 (email_line_no_newline stack h3)
  refine ⟨hsix, by rw [hsix]; rfl, fun hfalse => ?_⟩
  rw [hsix, hfalse]
  rfl

theorem add_answer_sequence_witness :
    stdinLines (buildAddAnswers sampleStack) =
      [sampleStack.phoenixd_domain, sampleStack.lnbits_domain,
       if sampleStack.use_real_certs then "y" else "n",
       if sampleStack.use_real_certs then pyStrOption sampleStack.email else "",
       if sampleStack.use_postgres then "y" else "n", "y"] ∧
    (stdinLines (buildAddAnswers sampleStack)).length = 6 ∧
    (sampleStack.use_real_certs = false →
      (stdinLines (buildAddAnswers sampleStack))[3]? = some "") :=
  add_answer_sequence sampleStack (by decide) (by decide)
    (fun e he => by simp [sampleStack] at he)

/-- Claim C5: a failure to start the provisioner binary (an OS error such as
file-not-found, errno 2, or permission-denied, errno 13) is observed by the
caller differently from a run that started and exited non-zero, in every one
of the three operations: for the list handler an uncaught exception replaces
the structured 500, and for create/remove the two 500 details can never
coincide (OS-error text starts with `[Errno`, the wrapped detail with
`500:`). -/
theorem start_failure_distinct_from_nonzero_exit (errno : Nat)
    (strerror filename : String) (stack : Stack) (stack_id : String)
    (rc : Int) (stdout stderr : String) (h : rc ≠ 0) :
    get_stacks (.startFailure (osErrorMsg errno strerror filename)) ≠
      get_stacks (.completed rc stdout stderr) ∧
    add_stack stack (.startFailure (osErrorMsg errno strerror filename)) ≠
      add_stack stack (.completed rc stdout stderr) ∧
    remove_stack stack_id (.startFailure (osErrorMsg errno strerror filename)) ≠
      remove_stack stack_id (.completed rc stdout stderr) := by
  have hadd : add_stack stack (.startFailure (osErrorMsg errno strerror filename)) =
      .httpError 500 (osErrorMsg errno strerror filename) := by
    simp [add_stack, addStackBody, strPyExn]
  have hrem : remove_stack stack_id (.startFailure (osErrorMsg errno strerror filename)) =
      .httpError 500 (osErrorMsg errno strerror filename) := by
    simp [remove_stack, removeStackBody, strPyExn]
  obtain ⟨hg, ha, hr⟩ :=
    nonzero_exit_carries_stderr rc stdout stderr stack stack_id h
  refine ⟨?_, ?_, ?_⟩
  · rw [hg]
    intro heq
    exact HandlerResult.noConfusion heq
  · rw [hadd, ha]
    intro heq
    injection heq with h1 h2
    exact osErrorMsg_ne_500msg errno strerror filename _ h2
  · rw [hrem, hr]
    intro heq
    injection heq with h1 h2
    exact osErrorMsg_ne_500msg errno strerror filename _ h2

theorem start_failure_distinct_witness :
    get_stacks (.startFailure (osErrorMsg 2 "No such file or directory" "init.sh")) ≠
      get_stacks (.completed 1 "" "boom") ∧
    add_stack sampleStack
        (.startFailure (osErrorMsg 2 "No such file or directory" "init.sh")) ≠
      add_stack sampleStack (.completed 1 "" "boom") ∧
    remove_stack "7"
        (.startFailure (osErrorMsg 2 "No such file or directory" "init.sh")) ≠
      remove_stack "7" (.completed 1 "" "boom") :=
  start_failure_distinct_from_nonzero_exit 2 "No such file or directory" "init.sh"
    sampleStack "7" 1 "" "boom" (by decide)

/-- Claim C6: a listing output with a non-blank line whose token count is not
three makes the whole list call fail (the `ValueError` from tuple unpacking
escapes the handler); no record list is ever returned, so the bad line is
neither dropped nor part of a partial directory. -/
theorem list_malformed_line_fails (stdout stderr : String)
    (h : ∃ l ∈ splitLinesPy (pyStripString stdout),
      l ≠ "" ∧ (pySplit l).length ≠ 3) :
    (∃ msg, get_stacks (.completed 0 stdout stderr) = .unhandled msg) ∧
    ∀ recs, get_stacks (.completed 0 stdout stderr) ≠ .ok recs := by
  obtain ⟨msg, hmsg⟩ := parseStacksLines_badline _ h
  have hg : get_stacks (.completed 0 stdout stderr) = .unhandled msg := by
    simp [get_stacks, parseStacks, hmsg]
  refine ⟨⟨msg, hg⟩, fun recs hrecs => ?_⟩
  rw [hg] at hrecs
  exact HandlerResult.noConfusion hrecs

theorem list_malformed_line_fails_witness :
    (∃ msg,
      get_stacks (.completed 0 "7 pay.example.com\n" "") = .unhandled msg) ∧
    ∀ recs, get_stacks (.completed 0 "7 pay.example.com\n" "") ≠ .ok recs :=
  list_malformed_line_fails "7 pay.example.com\n" "" (by decide)

/-- Claim C7: every rejection of the access gate is the one shared
`credentials_exception`: any two failing verifications — whatever their
reason (malformed token, wrong signing key, expired claim, unknown subject)
— produce the identical 401 error, so the caller cannot tell why
verification failed. -/
theorem gate_uniform_rejection (t₁ t₂ : JwtToken) (n₁ n₂ : Int)
    (h₁ : (get_current_user t₁ n₁).isOk = false)
    (h₂ : (get_current_user t₂ n₂).isOk = false) :
    get_current_user t₁ n₁ = .httpError 401 "Could not validate credentials" ∧
    get_current_user t₁ n₁ = get_current_user t₂ n₂ := by
  have e₁ : get_current_user t₁ n₁ =
      .httpError 401 "Could not validate credentials" := by
    rcases get_current_user_cases t₁ n₁ with he | ⟨u, hu⟩
    · exact he
    · rw [hu] at h₁
      simp [HandlerResult.isOk] at h₁
  have e₂ : get_current_user t₂ n₂ =
      .httpError 401 "Could not validate credentials" := by
    rcases get_current_user_cases t₂ n₂ with he | ⟨u, hu⟩
    · exact he
    · rw [hu] at h₂
      simp [HandlerResult.isOk] at h₂
  exact ⟨e₁, e₁.trans e₂.symm⟩

theorem gate_uniform_rejection_witness :
    get_current_user (.malformed "garbage") 0 =
      .httpError 401 "Could not validate credentials" ∧
    get_current_user (.malformed "garbage") 0 =
      get_current_user (.signed ⟨some "admin", 0⟩ SECRET_KEY) 10 :=
  gate_uniform_rejection (.malformed "garbage")
    (.signed ⟨some "admin", 0⟩ SECRET_KEY) 0 10 (by decide) (by decide)

/-- The credential store reduced to an explicit decision. -/
lemma authenticate_user_eq (username password : String) :
    authenticate_user username password =
      if username = "admin" ∧ password = "adminpassword"
      then some ⟨"admin", "adminpassword"⟩ else none := by
  unfold authenticate_user verify_password get_user USERS_DB
  by_cases hu : username = "admin"
  · subst hu
    by_cases hp : password = "adminpassword"
    · simp [List.lookup, hp]
    · simp [List.lookup, hp]
  · have hbe : (username == "admin") = false := beq_eq_false_iff_ne.mpr hu
    simp [List.lookup, hbe, hu]

/-- `get_user` reduced to an explicit decision. -/
lemma get_user_eq (username : String) :
    get_user username =
      if username = "admin" then some ⟨"admin", "adminpassword"⟩ else none := by
  unfold get_user USERS_DB
  by_cases hu : username = "admin"
  · subst hu
    simp [List.lookup]
  · have hbe : (username == "admin") = false := beq_eq_false_iff_ne.mpr hu
    simp [List.lookup, hbe, hu]

/-- Claim C8: a login with valid credentials issues a token whose expiry
claim is exactly 30 minutes (`ACCESS_TOKEN_EXPIRE_MINUTES`) after issue
time; the access gate accepts that token at every instant strictly before
the expiry and rejects it at every instant strictly after. -/
theorem login_token_expiry_window (username password : String) (now : Int)
    (user : UserInDB) (h : authenticate_user username password = some user) :
    ∃ tok, login_for_access_token username password now = .ok tok ∧
      tokenExp tok = now + ACCESS_TOKEN_EXPIRE_MINUTES * 60 ∧
      (∀ t : Int, t < now + ACCESS_TOKEN_EXPIRE_MINUTES * 60 →
        get_current_user tok t = .ok ⟨user.username⟩) ∧
      (∀ t : Int, now + ACCESS_TOKEN_EXPIRE_MINUTES * 60 < t →
        get_current_user tok t = .httpError 401 "Could not validate credentials") := by
  rw [authenticate_user_eq] at h
  by_cases hc : username = "admin" ∧ password = "adminpassword"
  · rw [if_pos hc] at h
    obtain rfl : user = ⟨"admin", "adminpassword"⟩ := (Option.some.injEq _ _).mp h.symm
    obtain ⟨rfl, rfl⟩ := hc
    refine ⟨.signed ⟨some "admin", now + ACCESS_TOKEN_EXPIRE_MINUTES * 60⟩ SECRET_KEY,
      ?_, rfl, ?_, ?_⟩
    · simp [login_for_access_token, authenticate_user_eq, create_access_token]
    · intro t ht
      have hexp : ¬ (now + ACCESS_TOKEN_EXPIRE_MINUTES * 60 < t) := by omega
      simp [get_current_user, jwt_decode, hexp, get_user_eq]
    · intro t ht
      simp [get_current_user, jwt_decode, ht]
  · rw [if_neg hc] at h
    exact absurd h (by simp)

theorem login_token_expiry_window_witness :
    ∃ tok, login_for_access_token "admin" "adminpassword" 0 = .ok tok ∧
      tokenExp tok = 0 + ACCESS_TOKEN_EXPIRE_MINUTES * 60 ∧
      (∀ t : Int, t < 0 + ACCESS_TOKEN_EXPIRE_MINUTES * 60 →
        get_current_user tok t = .ok ⟨"admin"⟩) ∧
      (∀ t : Int, 0 + ACCESS_TOKEN_EXPIRE_MINUTES * 60 < t →
        get_current_user tok t = .httpError 401 "Could not validate credentials") :=
  login_token_expiry_window "admin" "adminpassword" 0 ⟨"admin", "adminpassword"⟩
    (by decide)

/-- Claim C9: for a creation request with real certificates enabled and no
email supplied, line 4 of the stdin answer text is the literal four-character
string `"None"` — Python renders `str(None)` into the f-string — and not an
empty line. -/
theorem add_missing_email_sends_literal_none (stack : Stack)
    (h1 : '\n' ∉ stack.phoenixd_domain.data)
    (h2 : '\n' ∉ stack.lnbits_domain.data)
    (hc : stack.use_real_certs = true)
    (he : stack.email = none) :
    (stdinLines (buildAddAnswers stack))[3]? = some "None" ∧
    ("None" : String) ≠ "" ∧ ("None" : String).length = 4 := by
  have h3 : '\n' ∉ (if stack.use_real_certs then pyStrOption stack.email else "").data := by
    rw [hc, if_pos rfl, he]
    decide
  have hsix := stdinLines_buildAddAnswers stack h1 h2 h3
  refine ⟨?_, by decide, by decide⟩
  rw [hsix, hc, he]
  rfl

theorem add_missing_email_sends_literal_none_witness :
    (stdinLines (buildAddAnswers
      ⟨"pay.example.com", "wallet.example.com", true, false, none⟩))[3]? =
      some "None" ∧
    ("None" : String) ≠ "" ∧ ("None" : String).length = 4 :=
  add_missing_email_sends_literal_none
    ⟨"pay.example.com", "wallet.example.com", true, false, none⟩
    (by decide) (by decide) rfl rfl

/-- Claim C10: in the create and remove handlers, every exception the body
raises — including the non-zero-exit and missing-id `HTTPException`s — is
caught by the final `except Exception` clause and re-raised as a fresh 500
whose detail is the `str()` rendering of the caught exception; that wrapped
detail never equals the originally constructed detail, so the caller never
sees the original error object unmodified. -/
theorem catchall_wraps_handler_errors :
    (∀ stack outcome e, addStackBody stack outcome = .error e →
      add_stack stack outcome = .httpError 500 (strPyExn e)) ∧
    (∀ stack_id outcome e, removeStackBody stack_id outcome = .error e →
      remove_stack stack_id outcome = .httpError 500 (strPyExn e)) ∧
    (∀ sc d, strPyExn (.httpException sc d) ≠ d) := by
  refine ⟨?_, ?_, strPyExn_http_ne⟩
  · intro stack outcome e he
    simp [add_stack, he]
  · intro stack_id outcome e he
    simp [remove_stack, he]

theorem catchall_wraps_handler_errors_witness :
    add_stack sampleStack (.completed 1 "" "boom") =
      .httpError 500 (strPyExn (.httpException 500 ("Failed to add stack: " ++ "boom"))) ∧
    remove_stack "7" (.completed 1 "" "boom") =
      .httpError 500
        (strPyExn (.httpException 500 ("Failed to remove stack: " ++ "boom"))) ∧
    strPyExn (.httpException 500 "Failed to extract stack ID from output") ≠
      "Failed to extract stack ID from output" :=
  ⟨catchall_wraps_handler_errors.1 sampleStack (.completed 1 "" "boom")
      (.httpException 500 ("Failed to add stack: " ++ "boom")) rfl,
   catchall_wraps_handler_errors.2.1 "7" (.completed 1 "" "boom")
      (.httpException 500 ("Failed to remove stack: " ++ "boom")) rfl,
   catchall_wraps_handler_errors.2.2 500 "Failed to extract stack ID from output"⟩

end Lightstack
